import Mathlib

/-!
Verification of the stock-movement reconciliation core of `api_vendas`.

The embedding translates, from the source:
  * the relational rows of `vender_api/models.py` (`Estoque`, `EntradaEstoque`,
    `SaidaEstoque`, the `sku` column of `Produtos`), dropping the bookkeeping
    columns (`created_at`, `updated_at`, movement-row ids) that no handler reads;
  * the request schemas of `vender_api/schemas/estoque_schemas.py` (the `ge=1` /
    `ge=0` bounds on `quantidade`);
  * the route handlers `create_entrada_estoque` and `create_saida_estoque` of
    `vender_api/routers/v1/movimentacao_estoque_routers.py`, and
    `create_estoque`, `update_estoque`, `delete_estoque` of
    `vender_api/routers/v1/estoque_routers.py`, plus `create_product` of
    `vender_api/app.py`;
  * the decorator `commit_and_refresh` of `vender_api/tools/decorador.py`.

The SQLAlchemy session is modelled by explicit state passing: a handler receives
the current database and returns the pending post-state (its `session.add` and
attribute mutations) or the `HTTPException` it raises.  The decorator then
commits the pending state or rolls back to the pre-state.  A commit can fail in
two ways: a foreign-key violation (the `ForeignKey('produtos.sku')` columns
declared in `models.py`), or an unexpected storage-layer failure, modelled by a
boolean oracle `storageOk` passed to each request.  `session.refresh` is
modelled as the pure reload of the returned row.  The decorator also emits the
trace of terminal transaction events it performs, for the atomicity theorems.
-/

namespace VenderApi

/-- `fastapi.HTTPException`: a status code and a detail string. -/
structure HTTPErr where
  status_code : Nat
  detail : String
deriving Repr, DecidableEq

/-- A row of `entradas_estoque` or `saidas_estoque` (`models.py`): both tables
carry `produto_sku`, `quantidade`, a timestamp and an optional `observacao`.
Timestamps are opaque integers. -/
structure MovementRow where
  produto_sku : String
  quantidade : Int
  data : Int
  observacao : Option String
deriving Repr, DecidableEq

/-- A row of `estoque` (`models.py`): autoincrement `id`, `produto_sku`
(FK to `produtos.sku`), `quantidade`, and the descriptive columns. -/
structure EstoqueRow where
  id : Nat
  produto_sku : String
  quantidade : Int
  fornecedor_id : Option Int
  lote : Option String
  numero_serie : Option String
  observacao : Option String
deriving Repr, DecidableEq

/-- The relational store: known product SKUs (the `produtos.sku` column),
the three movement/balance tables, and the next autoincrement id for
`estoque`.  Columns of `Produtos` other than `sku` are never read by the
stock-movement core and are omitted. -/
structure DB where
  produtos : List String
  estoque : List EstoqueRow
  entradas : List MovementRow
  saidas : List MovementRow
  nextId : Nat
deriving Repr, DecidableEq

/-- The store of a freshly migrated deployment: no rows. -/
def emptyDB : DB := ⟨[], [], [], [], 0⟩

/-- Modelled from the spec: the `EntradaEstoqueCreate` class imported by the
router is missing from the source tree; per the spec of movement requests it
carries the `EntradaEstoqueBase` fields of `schemas/estoque_schemas.py`
(request body of `POST /movimentacoes/entradas`). -/
structure EntradaEstoqueCreate where
  produto_sku : String
  quantidade : Int
  data_entrada : Int
  observacao : Option String
deriving Repr, DecidableEq

/-- Modelled from the spec: the missing `SaidaEstoqueCreate` class, carrying
the `SaidaEstoqueBase` fields (request body of `POST /movimentacoes/saidas`). -/
structure SaidaEstoqueCreate where
  produto_sku : String
  quantidade : Int
  data_saida : Int
  observacao : Option String
deriving Repr, DecidableEq

/-- Modelled from the spec: the missing `EstoqueCreate` class, carrying the
`EstoqueBase` fields (request body of `POST /estoque/`). -/
structure EstoqueCreate where
  produto_sku : String
  quantidade : Int
  fornecedor_id : Option Int
  lote : Option String
  numero_serie : Option String
  observacao : Option String
deriving Repr, DecidableEq

/-- Request body of `PATCH /estoque/{id}` (`EstoqueUpdate` in
`schemas/estoque_schemas.py`): every field optional.  `some v` models a field
present in the request (pydantic `exclude_unset`). -/
structure EstoqueUpdate where
  quantidade : Option Int
  fornecedor_id : Option Int
  lote : Option String
  numero_serie : Option String
  observacao : Option String
deriving Repr, DecidableEq

/-- `session.scalar(select(Estoque).where(Estoque.produto_sku == sku))`:
the first `estoque` row with the given SKU. -/
def findEstoqueBySku (l : List EstoqueRow) (sku : String) : Option EstoqueRow :=
  l.find? (fun e => e.produto_sku == sku)

/-- `session.scalar(select(Estoque).where(Estoque.id == i))`:
the first `estoque` row with the given id. -/
def findEstoqueById (l : List EstoqueRow) (i : Nat) : Option EstoqueRow :=
  l.find? (fun e => e.id == i)

/-- In-place ORM mutation `db_estoque.quantidade = q` of the row
`findEstoqueBySku` returned: rewrite the first row with that SKU. -/
def setQuantidadeFirst (l : List EstoqueRow) (sku : String) (q : Int) :
    List EstoqueRow :=
  match l with
  | [] => []
  | e :: rest =>
      if e.produto_sku == sku then { e with quantidade := q } :: rest
      else e :: setQuantidadeFirst rest sku q

/-- In-place ORM mutation of the row `findEstoqueById` returned:
replace the first row with that id. -/
def setRowFirstById (l : List EstoqueRow) (i : Nat) (e' : EstoqueRow) :
    List EstoqueRow :=
  match l with
  | [] => []
  | e :: rest =>
      if e.id == i then e' :: rest else e :: setRowFirstById rest i e'

/-- `session.delete` of the row `findEstoqueById` returned:
drop the first row with that id. -/
def removeEstoqueById (l : List EstoqueRow) (i : Nat) : List EstoqueRow :=
  match l with
  | [] => []
  | e :: rest => if e.id == i then rest else e :: removeEstoqueById rest i

/-- The `ForeignKey('produtos.sku')` constraints declared in `models.py` on
`estoque`, `entradas_estoque` and `saidas_estoque`, checked when the unit of
work commits: every referencing row names a known product SKU. -/
def fkOk (db : DB) : Bool :=
  db.estoque.all (fun e => db.produtos.contains e.produto_sku) &&
  db.entradas.all (fun m => db.produtos.contains m.produto_sku) &&
  db.saidas.all (fun m => db.produtos.contains m.produto_sku)

/-- Terminal transaction events performed by the decorator on the session:
a successful `session.commit()`, a `session.commit()` that raised, and a
`session.rollback()`. -/
inductive TxEvent where
  | commitOk
  | commitFail
  | rollback
deriving Repr, DecidableEq

/-- `commit_and_refresh(status_code, detail)` of `tools/decorador.py` applied
to the outcome of the wrapped handler: on a normal return it commits the
pending state and returns the refreshed object; on any exception — one raised
by the handler itself or by the commit (foreign-key violation, or storage
failure `storageOk = false`) — it rolls back to the pre-state and raises its
own `HTTPException(status_code, detail)`, discarding the original exception.
Also yields the trace of terminal transaction events. -/
def commit_and_refresh (status_code : Nat) (detail : String) (storageOk : Bool)
    (db : DB) (r : Except HTTPErr (DB × α)) :
    DB × Except HTTPErr α × List TxEvent :=
  match r with
  | .ok (db', a) =>
      if fkOk db' && storageOk then (db', .ok a, [.commitOk])
      else (db, .error ⟨status_code, detail⟩, [.commitFail, .rollback])
  | .error _ => (db, .error ⟨status_code, detail⟩, [.rollback])

/-- Handler body of `POST /movimentacoes/entradas`
(`create_entrada_estoque`, `movimentacao_estoque_routers.py` lines 87-117):
add the new `EntradaEstoque` row, then increment the existing `Estoque` row
for the SKU, or add a fresh one carrying the inbound quantity.  The handler
raises nothing; in particular it never checks that the product exists. -/
def create_entrada_estoque (entrada : EntradaEstoqueCreate) (db : DB) :
    Except HTTPErr (DB × MovementRow) :=
  let new_entrada : MovementRow :=
    ⟨entrada.produto_sku, entrada.quantidade, entrada.data_entrada,
      entrada.observacao⟩
  let db1 := { db with entradas := db.entradas ++ [new_entrada] }
  match findEstoqueBySku db1.estoque entrada.produto_sku with
  | some db_estoque =>
      .ok ({ db1 with
              estoque := setQuantidadeFirst db1.estoque entrada.produto_sku
                (db_estoque.quantidade + entrada.quantidade) },
            new_entrada)
  | none =>
      let novo : EstoqueRow :=
        ⟨db1.nextId, entrada.produto_sku, entrada.quantidade,
          none, none, none, none⟩
      .ok ({ db1 with
              estoque := db1.estoque ++ [novo],
              nextId := db1.nextId + 1 },
            new_entrada)

/-- Handler body of `POST /movimentacoes/saidas`
(`create_saida_estoque`, `movimentacao_estoque_routers.py` lines 184-210):
add the new `SaidaEstoque` row; if an `Estoque` row for the SKU exists and
holds at least the outbound quantity, decrement it, otherwise raise
`HTTPException(400, 'Estoque insuficiente para saída')`. -/
def create_saida_estoque (saida : SaidaEstoqueCreate) (db : DB) :
    Except HTTPErr (DB × MovementRow) :=
  let new_saida : MovementRow :=
    ⟨saida.produto_sku, saida.quantidade, saida.data_saida, saida.observacao⟩
  let db1 := { db with saidas := db.saidas ++ [new_saida] }
  match findEstoqueBySku db1.estoque saida.produto_sku with
  | some db_estoque =>
      if saida.quantidade ≤ db_estoque.quantidade then
        .ok ({ db1 with
                estoque := setQuantidadeFirst db1.estoque saida.produto_sku
                  (db_estoque.quantidade - saida.quantidade) },
              new_saida)
      else .error ⟨400, "Estoque insuficiente para saída"⟩
  | none => .error ⟨400, "Estoque insuficiente para saída"⟩

/-- Handler body of `POST /estoque/` (`create_estoque`,
`estoque_routers.py` lines 85-103): the caller-supplied `quantidade` is
overwritten with 0 before the row is added. -/
def create_estoque (estoque : EstoqueCreate) (db : DB) :
    Except HTTPErr (DB × EstoqueRow) :=
  let new_estoque : EstoqueRow :=
    ⟨db.nextId, estoque.produto_sku, 0, estoque.fornecedor_id,
      estoque.lote, estoque.numero_serie, estoque.observacao⟩
  .ok ({ db with
          estoque := db.estoque ++ [new_estoque],
          nextId := db.nextId + 1 },
        new_estoque)

/-- `update_data.pop('quantidade', None)` followed by the `setattr` loop
(`update_estoque`, `estoque_routers.py` lines 136-141): apply every supplied
field except `quantidade`, which is discarded. -/
def applyEstoqueUpdate (e : EstoqueRow) (u : EstoqueUpdate) : EstoqueRow :=
  let e1 := match u.fornecedor_id with
    | some v => { e with fornecedor_id := some v }
    | none => e
  let e2 := match u.lote with
    | some v => { e1 with lote := some v }
    | none => e1
  let e3 := match u.numero_serie with
    | some v => { e2 with numero_serie := some v }
    | none => e2
  match u.observacao with
  | some v => { e3 with observacao := some v }
  | none => e3

/-- Handler body of `PATCH /estoque/{id}` (`update_estoque`,
`estoque_routers.py` lines 113-141): 404 when the row is missing, otherwise
mutate it in place with `applyEstoqueUpdate`. -/
def update_estoque (estoque_id : Nat) (u : EstoqueUpdate) (db : DB) :
    Except HTTPErr (DB × EstoqueRow) :=
  match findEstoqueById db.estoque estoque_id with
  | none => .error ⟨404, "Estoque não encontrado"⟩
  | some db_estoque =>
      let updated := applyEstoqueUpdate db_estoque u
      .ok ({ db with
              estoque := setRowFirstById db.estoque estoque_id updated },
            updated)

/-- A failure surfaced to the client: a pydantic validation rejection
(HTTP 422, raised by FastAPI before the handler runs) or an
`HTTPException`. -/
inductive ApiError where
  | validation
  | http (e : HTTPErr)
deriving Repr, DecidableEq

deriving instance DecidableEq for Except

/-- Outcome of one request: the post-state of the store, the response, and
the trace of terminal transaction events. -/
structure ApiResult (α : Type) where
  db : DB
  response : Except ApiError α
  tx : List TxEvent
deriving Repr, DecidableEq

/-- `Except` success test. -/
def exceptOk (r : Except ε α) : Bool :=
  match r with
  | .ok _ => true
  | .error _ => false

/-- Full request `POST /movimentacoes/entradas`: pydantic validation of
`EntradaEstoqueBase` (`quantidade: int = Field(..., ge=1)`), then the handler
under `@commit_and_refresh(status_code=400, detail='Erro ao criar a entrada
de estoque')`. -/
def callCreateEntrada (storageOk : Bool) (db : DB)
    (entrada : EntradaEstoqueCreate) : ApiResult MovementRow :=
  if 1 ≤ entrada.quantidade then
    let r := commit_and_refresh 400 "Erro ao criar a entrada de estoque"
      storageOk db (create_entrada_estoque entrada db)
    ⟨r.1, r.2.1.mapError ApiError.http, r.2.2⟩
  else ⟨db, .error .validation, []⟩

/-- Full request `POST /movimentacoes/saidas`: pydantic validation of
`SaidaEstoqueBase` (`ge=1`), then the handler under
`@commit_and_refresh(status_code=400, detail='Erro ao criar a saída de
estoque')`. -/
def callCreateSaida (storageOk : Bool) (db : DB)
    (saida : SaidaEstoqueCreate) : ApiResult MovementRow :=
  if 1 ≤ saida.quantidade then
    let r := commit_and_refresh 400 "Erro ao criar a saída de estoque"
      storageOk db (create_saida_estoque saida db)
    ⟨r.1, r.2.1.mapError ApiError.http, r.2.2⟩
  else ⟨db, .error .validation, []⟩

/-- Full request `POST /estoque/`: pydantic validation of `EstoqueBase`
(`quantidade: int = Field(..., ge=0)`), then the handler under
`@commit_and_refresh(status_code=400, detail='Erro ao criar o estoque')`. -/
def callCreateEstoque (storageOk : Bool) (db : DB) (c : EstoqueCreate) :
    ApiResult EstoqueRow :=
  if 0 ≤ c.quantidade then
    let r := commit_and_refresh 400 "Erro ao criar o estoque"
      storageOk db (create_estoque c db)
    ⟨r.1, r.2.1.mapError ApiError.http, r.2.2⟩
  else ⟨db, .error .validation, []⟩

/-- Full request `PATCH /estoque/{id}`: pydantic validation of
`EstoqueUpdate` (`quantidade: Optional[int] = Field(None, ge=0)`), then the
handler under `@commit_and_refresh(status_code=400, detail='Erro ao atualizar
o estoque')`. -/
def callUpdateEstoque (storageOk : Bool) (db : DB) (estoque_id : Nat)
    (u : EstoqueUpdate) : ApiResult EstoqueRow :=
  if u.quantidade.all (fun q => decide (0 ≤ q)) then
    let r := commit_and_refresh 400 "Erro ao atualizar o estoque"
      storageOk db (update_estoque estoque_id u db)
    ⟨r.1, r.2.1.mapError ApiError.http, r.2.2⟩
  else ⟨db, .error .validation, []⟩

/-- `DELETE /estoque/{id}` (`delete_estoque`, `estoque_routers.py` lines
145-165): not decorated; 404 when missing, otherwise delete and commit
directly (an uncommitted session is discarded when the request ends, so a
failed commit leaves the store unchanged). -/
def delete_estoque (storageOk : Bool) (db : DB) (estoque_id : Nat) :
    DB × Except HTTPErr Unit :=
  match findEstoqueById db.estoque estoque_id with
  | none => (db, .error ⟨404, "Estoque não encontrado"⟩)
  | some _ =>
      if storageOk then
        ({ db with estoque := removeEstoqueById db.estoque estoque_id },
          .ok ())
      else (db, .error ⟨500, "Internal Server Error"⟩)

/-- `POST /produtos/` (`create_product`, `app.py`): 409 on a duplicate SKU,
otherwise add the product and commit directly.  Only the `sku` column is
modelled; the other `Produtos` columns are never read by this core. -/
def create_product (storageOk : Bool) (db : DB) (sku : String) :
    DB × Except HTTPErr Unit :=
  if db.produtos.contains sku then
    (db, .error ⟨409, "Produto já cadastrado com esse SKU"⟩)
  else if storageOk then
    ({ db with produtos := db.produtos ++ [sku] }, .ok ())
  else (db, .error ⟨500, "Internal Server Error"⟩)

/-- The balance the store shows for a SKU: the quantity of its `estoque`
row, or 0 when no row exists. -/
def balance (db : DB) (sku : String) : Int :=
  match findEstoqueBySku db.estoque sku with
  | some e => e.quantidade
  | none => 0

/-- A movement request against the API. -/
inductive MovReq where
  | inbound (e : EntradaEstoqueCreate)
  | outbound (s : SaidaEstoqueCreate)
deriving Repr, DecidableEq

/-- The SKU a movement request targets. -/
def movSku : MovReq → String
  | .inbound e => e.produto_sku
  | .outbound s => s.produto_sku

/-- Apply one movement request sequentially (storage healthy): the post-state
and whether the request succeeded. -/
def applyMov (db : DB) : MovReq → DB × Bool
  | .inbound e =>
      let r := callCreateEntrada true db e
      (r.db, exceptOk r.response)
  | .outbound s =>
      let r := callCreateSaida true db s
      (r.db, exceptOk r.response)

/-- Apply a sequence of movement requests left to right. -/
def applyMovs (db : DB) : List MovReq → DB
  | [] => db
  | m :: ms => applyMovs (applyMov db m).1 ms

/-- Every request of the sequence succeeds when applied in order. -/
def allSucceed (db : DB) : List MovReq → Bool
  | [] => true
  | m :: ms => (applyMov db m).2 && allSucceed (applyMov db m).1 ms

/-- Sum of the inbound amounts of a sequence. -/
def sumInbound : List MovReq → Int
  | [] => 0
  | .inbound e :: ms => e.quantidade + sumInbound ms
  | .outbound _ :: ms => sumInbound ms

/-- Sum of the outbound amounts of a sequence. -/
def sumOutbound : List MovReq → Int
  | [] => 0
  | .inbound _ :: ms => sumOutbound ms
  | .outbound s :: ms => s.quantidade + sumOutbound ms

/-- One API operation that can touch the store. -/
inductive Op where
  | newProduct (sku : String)
  | entrada (e : EntradaEstoqueCreate)
  | saida (s : SaidaEstoqueCreate)
  | novoEstoque (c : EstoqueCreate)
  | updEstoque (i : Nat) (u : EstoqueUpdate)
  | delEstoque (i : Nat)
deriving Repr, DecidableEq

/-- Run one operation against the store; `ok` is the storage oracle for the
commit the operation performs. -/
def runOp (ok : Bool) (db : DB) : Op → DB
  | .newProduct sku => (create_product ok db sku).1
  | .entrada e => (callCreateEntrada ok db e).db
  | .saida s => (callCreateSaida ok db s).db
  | .novoEstoque c => (callCreateEstoque ok db c).db
  | .updEstoque i u => (callUpdateEstoque ok db i u).db
  | .delEstoque i => (delete_estoque ok db i).1

/-- States reachable from a fresh deployment through the API operations,
under any storage behaviour. -/
inductive Reachable : DB → Prop
  | init : Reachable emptyDB
  | step (db : DB) (ok : Bool) (op : Op) :
      Reachable db → Reachable (runOp ok db op)

/-- Number of `estoque` rows for a SKU. -/
def countSku (db : DB) (sku : String) : Nat :=
  db.estoque.countP (fun x => x.produto_sku == sku)

/-- Signed amount of a movement request: inbound counts positively,
outbound negatively. -/
def movDelta : MovReq → Int
  | .inbound e => e.quantidade
  | .outbound s => -s.quantidade

/-- Test fixture: product ABC123 registered, no balance rows. -/
def dbProd : DB := ⟨["ABC123"], [], [], [], 0⟩

/-- Test fixture: product ABC123 with a balance row of quantity 6. -/
def dbSeed : DB := ⟨["ABC123"], [⟨0, "ABC123", 6, none, none, none, none⟩], [], [], 1⟩

/-- Test fixture: product ABC123 with a balance row of quantity 0. -/
def dbZero : DB := ⟨["ABC123"], [⟨0, "ABC123", 0, none, none, none, none⟩], [], [], 1⟩

/-! ### Helper lemmas about the row-level operations -/

theorem findEstoqueBySku_setQuantidadeFirst (l : List EstoqueRow) (sku : String)
    (q : Int) :
    findEstoqueBySku (setQuantidadeFirst l sku q) sku =
      (findEstoqueBySku l sku).map (fun e => { e with quantidade := q }) := by
  induction l with
  | nil => rfl
  | cons a l ih =>
    by_cases h : (a.produto_sku == sku) = true
    · simp [findEstoqueBySku, setQuantidadeFirst, h]
    · simp [findEstoqueBySku, setQuantidadeFirst, h] at ih ⊢
      exact ih

theorem mem_setQuantidadeFirst {l : List EstoqueRow} {sku : String} {q : Int}
    {x : EstoqueRow} (hx : x ∈ setQuantidadeFirst l sku q) :
    (∃ y ∈ l, x = { y with quantidade := q }) ∨ x ∈ l := by
  induction l with
  | nil => simp only [setQuantidadeFirst] at hx; cases hx
  | cons a l ih =>
    simp only [setQuantidadeFirst] at hx
    by_cases h : (a.produto_sku == sku) = true
    · rw [if_pos h] at hx
      rcases List.mem_cons.mp hx with rfl | hmem
      · exact .inl ⟨a, List.mem_cons_self _ _, rfl⟩
      · exact .inr (List.mem_cons_of_mem _ hmem)
    · rw [if_neg h] at hx
      rcases List.mem_cons.mp hx with rfl | hmem
      · exact .inr (List.mem_cons_self _ _)
      · rcases ih hmem with ⟨y, hy, hxy⟩ | h2
        · exact .inl ⟨y, List.mem_cons_of_mem _ hy, hxy⟩
        · exact .inr (List.mem_cons_of_mem _ h2)

theorem map_sku_setQuantidadeFirst (l : List EstoqueRow) (sku : String)
    (q : Int) :
    (setQuantidadeFirst l sku q).map (fun e => e.produto_sku) =
      l.map (fun e => e.produto_sku) := by
  induction l with
  | nil => rfl
  | cons a l ih =>
    simp only [setQuantidadeFirst]
    split
    · simp
    · simp [ih]

theorem all_sku_of_map_eq {l l' : List EstoqueRow} (p : String → Bool)
    (h : l'.map (fun e => e.produto_sku) = l.map (fun e => e.produto_sku)) :
    l'.all (fun e => p e.produto_sku) = l.all (fun e => p e.produto_sku) := by
  have key : ∀ m : List EstoqueRow,
      m.all (fun e => p e.produto_sku) =
        (m.map (fun e => e.produto_sku)).all p := by
    intro m
    induction m with
    | nil => rfl
    | cons a m ih => simp [List.all_cons, ih]
  rw [key, key, h]

theorem countP_sku_setQuantidadeFirst (l : List EstoqueRow) (sku t : String)
    (q : Int) :
    (setQuantidadeFirst l sku q).countP (fun x => x.produto_sku == t) =
      l.countP (fun x => x.produto_sku == t) := by
  induction l with
  | nil => rfl
  | cons a l ih =>
    simp only [setQuantidadeFirst]
    split
    · simp [List.countP_cons]
    · simp [List.countP_cons, ih]

theorem findEstoqueBySku_append_of_none {l : List EstoqueRow} {sku : String}
    (h : findEstoqueBySku l sku = none) (l₂ : List EstoqueRow) :
    findEstoqueBySku (l ++ l₂) sku = findEstoqueBySku l₂ sku := by
  induction l with
  | nil => rfl
  | cons a l ih =>
    by_cases hp : (a.produto_sku == sku) = true
    · simp [findEstoqueBySku, hp] at h
    · simp [findEstoqueBySku, hp] at h ih ⊢
      exact ih h

theorem mem_removeEstoqueById {l : List EstoqueRow} {i : Nat} {x : EstoqueRow}
    (hx : x ∈ removeEstoqueById l i) : x ∈ l := by
  induction l with
  | nil => simp only [removeEstoqueById] at hx; cases hx
  | cons a l ih =>
    simp only [removeEstoqueById] at hx
    split at hx
    · exact List.mem_cons_of_mem _ hx
    · rcases List.mem_cons.mp hx with rfl | hmem
      · exact List.mem_cons_self _ _
      · exact List.mem_cons_of_mem _ (ih hmem)

theorem applyEstoqueUpdate_id (e : EstoqueRow) (u : EstoqueUpdate) :
    (applyEstoqueUpdate e u).id = e.id := by
  simp only [applyEstoqueUpdate]
  cases u.fornecedor_id <;> cases u.lote <;> cases u.numero_serie <;>
    cases u.observacao <;> rfl

theorem applyEstoqueUpdate_quantidade (e : EstoqueRow) (u : EstoqueUpdate) :
    (applyEstoqueUpdate e u).quantidade = e.quantidade := by
  simp only [applyEstoqueUpdate]
  cases u.fornecedor_id <;> cases u.lote <;> cases u.numero_serie <;>
    cases u.observacao <;> rfl

theorem applyEstoqueUpdate_sku (e : EstoqueRow) (u : EstoqueUpdate) :
    (applyEstoqueUpdate e u).produto_sku = e.produto_sku := by
  simp only [applyEstoqueUpdate]
  cases u.fornecedor_id <;> cases u.lote <;> cases u.numero_serie <;>
    cases u.observacao <;> rfl

theorem map_idq_setRowFirstById {l : List EstoqueRow} {i : Nat}
    {e0 : EstoqueRow} (hfind : findEstoqueById l i = some e0)
    {e' : EstoqueRow} (hid : e'.id = e0.id) (hq : e'.quantidade = e0.quantidade) :
    (setRowFirstById l i e').map (fun e => (e.id, e.quantidade)) =
      l.map (fun e => (e.id, e.quantidade)) := by
  induction l with
  | nil => cases hfind
  | cons a l ih =>
    by_cases h : (a.id == i) = true
    · simp only [findEstoqueById] at hfind
      simp [h] at hfind
      subst hfind
      simp only [setRowFirstById, if_pos h, List.map_cons, hid, hq]
    · simp only [findEstoqueById] at hfind ih
      simp [h] at hfind
      simp only [setRowFirstById, if_neg h, List.map_cons]
      rw [ih hfind]

theorem map_sku_setRowFirstById {l : List EstoqueRow} {i : Nat}
    {e0 : EstoqueRow} (hfind : findEstoqueById l i = some e0)
    {e' : EstoqueRow} (hsku : e'.produto_sku = e0.produto_sku) :
    (setRowFirstById l i e').map (fun e => e.produto_sku) =
      l.map (fun e => e.produto_sku) := by
  induction l with
  | nil => cases hfind
  | cons a l ih =>
    by_cases h : (a.id == i) = true
    · simp only [findEstoqueById] at hfind
      simp [h] at hfind
      subst hfind
      simp only [setRowFirstById, if_pos h, List.map_cons, hsku]
    · simp only [findEstoqueById] at hfind ih
      simp [h] at hfind
      simp only [setRowFirstById, if_neg h, List.map_cons]
      rw [ih hfind]

/-! ### Commit and endpoint characterization lemmas -/

theorem fkOk_iff {db : DB} :
    fkOk db = true ↔
      db.estoque.all (fun e => db.produtos.contains e.produto_sku) = true ∧
      db.entradas.all (fun m => db.produtos.contains m.produto_sku) = true ∧
      db.saidas.all (fun m => db.produtos.contains m.produto_sku) = true := by
  simp [fkOk, Bool.and_eq_true, and_assoc]

theorem contains_sku_of_find {db : DB} {sku : String} {e0 : EstoqueRow}
    (hfk : fkOk db = true)
    (hfind : findEstoqueBySku db.estoque sku = some e0) :
    db.produtos.contains sku = true := by
  rcases fkOk_iff.mp hfk with ⟨he, -, -⟩
  have hmem := List.mem_of_find?_eq_some hfind
  have hp : e0.produto_sku = sku := by
    have := List.find?_some hfind
    simpa using this
  have := (List.all_eq_true.mp he) e0 hmem
  simpa [hp] using this

theorem fkOk_saida_commit {db : DB} {sku : String}
    (hfk : fkOk db = true)
    (hsku : db.produtos.contains sku = true) (q : Int)
    (row : MovementRow) (hrow : row.produto_sku = sku) :
    fkOk { db with
            estoque := setQuantidadeFirst db.estoque sku q,
            saidas := db.saidas ++ [row] } = true := by
  rcases fkOk_iff.mp hfk with ⟨he, hn, hs⟩
  apply fkOk_iff.mpr
  refine ⟨?_, hn, ?_⟩
  · rw [show ({ db with
        estoque := setQuantidadeFirst db.estoque sku q,
        saidas := db.saidas ++ [row] } : DB).estoque =
          setQuantidadeFirst db.estoque sku q from rfl]
    rw [all_sku_of_map_eq _ (map_sku_setQuantidadeFirst db.estoque sku q)]
    exact he
  · simp [List.all_append, hrow]
    exact ⟨by simpa using hs, by simpa using hsku⟩

theorem fkOk_entrada_commit_found {db : DB} {sku : String}
    (hfk : fkOk db = true)
    (hsku : db.produtos.contains sku = true) (q : Int)
    (row : MovementRow) (hrow : row.produto_sku = sku) :
    fkOk { db with
            estoque := setQuantidadeFirst db.estoque sku q,
            entradas := db.entradas ++ [row] } = true := by
  rcases fkOk_iff.mp hfk with ⟨he, hn, hs⟩
  apply fkOk_iff.mpr
  refine ⟨?_, ?_, hs⟩
  · rw [show ({ db with
        estoque := setQuantidadeFirst db.estoque sku q,
        entradas := db.entradas ++ [row] } : DB).estoque =
          setQuantidadeFirst db.estoque sku q from rfl]
    rw [all_sku_of_map_eq _ (map_sku_setQuantidadeFirst db.estoque sku q)]
    exact he
  · simp [List.all_append, hrow]
    exact ⟨by simpa using hn, by simpa using hsku⟩

theorem fkOk_entrada_commit_new {db : DB} {sku : String}
    (hfk : fkOk db = true)
    (hsku : db.produtos.contains sku = true)
    (novo : EstoqueRow) (hnovo : novo.produto_sku = sku)
    (row : MovementRow) (hrow : row.produto_sku = sku) :
    fkOk { db with
            estoque := db.estoque ++ [novo],
            entradas := db.entradas ++ [row],
            nextId := db.nextId + 1 } = true := by
  rcases fkOk_iff.mp hfk with ⟨he, hn, hs⟩
  apply fkOk_iff.mpr
  refine ⟨?_, ?_, hs⟩
  · simp [List.all_append, hnovo]
    exact ⟨by simpa using he, by simpa using hsku⟩
  · simp [List.all_append, hrow]
    exact ⟨by simpa using hn, by simpa using hsku⟩

theorem fkOk_update_commit {db : DB} {i : Nat} {e0 : EstoqueRow}
    (hfk : fkOk db = true) (hfind : findEstoqueById db.estoque i = some e0)
    {e' : EstoqueRow} (hsku : e'.produto_sku = e0.produto_sku) :
    fkOk { db with estoque := setRowFirstById db.estoque i e' } = true := by
  rcases fkOk_iff.mp hfk with ⟨he, hn, hs⟩
  apply fkOk_iff.mpr
  refine ⟨?_, hn, hs⟩
  rw [show ({ db with estoque := setRowFirstById db.estoque i e' } : DB).estoque
      = setRowFirstById db.estoque i e' from rfl]
  rw [all_sku_of_map_eq _ (map_sku_setRowFirstById hfind hsku)]
  exact he

theorem callCreateSaida_invalid (ok : Bool) (db : DB) (s : SaidaEstoqueCreate)
    (h : ¬ 1 ≤ s.quantidade) :
    callCreateSaida ok db s = ⟨db, .error .validation, []⟩ := by
  simp [callCreateSaida, h]

theorem callCreateEntrada_invalid (ok : Bool) (db : DB)
    (e : EntradaEstoqueCreate) (h : ¬ 1 ≤ e.quantidade) :
    callCreateEntrada ok db e = ⟨db, .error .validation, []⟩ := by
  simp [callCreateEntrada, h]

theorem callCreateSaida_handler_error (ok : Bool) (db : DB)
    (s : SaidaEstoqueCreate) (hq : 1 ≤ s.quantidade) {he : HTTPErr}
    (h : create_saida_estoque s db = .error he) :
    callCreateSaida ok db s =
      ⟨db, .error (.http ⟨400, "Erro ao criar a saída de estoque"⟩),
        [.rollback]⟩ := by
  simp [callCreateSaida, hq, commit_and_refresh, h, Except.mapError]

theorem callCreateSaida_handler_ok (ok : Bool) (db : DB)
    (s : SaidaEstoqueCreate) (hq : 1 ≤ s.quantidade) {db' : DB}
    {m : MovementRow} (h : create_saida_estoque s db = .ok (db', m)) :
    callCreateSaida ok db s =
      if fkOk db' && ok then ⟨db', .ok m, [.commitOk]⟩
      else ⟨db, .error (.http ⟨400, "Erro ao criar a saída de estoque"⟩),
        [.commitFail, .rollback]⟩ := by
  simp only [callCreateSaida, if_pos hq, commit_and_refresh, h]
  split <;> simp [Except.mapError]

theorem callCreateEntrada_handler_ok (ok : Bool) (db : DB)
    (e : EntradaEstoqueCreate) (hq : 1 ≤ e.quantidade) {db' : DB}
    {m : MovementRow} (h : create_entrada_estoque e db = .ok (db', m)) :
    callCreateEntrada ok db e =
      if fkOk db' && ok then ⟨db', .ok m, [.commitOk]⟩
      else ⟨db, .error (.http ⟨400, "Erro ao criar a entrada de estoque"⟩),
        [.commitFail, .rollback]⟩ := by
  simp only [callCreateEntrada, if_pos hq, commit_and_refresh, h]
  split <;> simp [Except.mapError]

theorem create_saida_estoque_found_ge {db : DB} {s : SaidaEstoqueCreate}
    {e0 : EstoqueRow}
    (hfind : findEstoqueBySku db.estoque s.produto_sku = some e0)
    (hge : s.quantidade ≤ e0.quantidade) :
    create_saida_estoque s db = .ok
      ({ db with
          estoque := setQuantidadeFirst db.estoque s.produto_sku
            (e0.quantidade - s.quantidade),
          saidas := db.saidas ++
            [⟨s.produto_sku, s.quantidade, s.data_saida, s.observacao⟩] },
        ⟨s.produto_sku, s.quantidade, s.data_saida, s.observacao⟩) := by
  simp [create_saida_estoque, hfind, hge]

theorem create_saida_estoque_insufficient {db : DB} {s : SaidaEstoqueCreate}
    (h : findEstoqueBySku db.estoque s.produto_sku = none ∨
      ∃ e0, findEstoqueBySku db.estoque s.produto_sku = some e0 ∧
        e0.quantidade < s.quantidade) :
    create_saida_estoque s db =
      .error ⟨400, "Estoque insuficiente para saída"⟩ := by
  rcases h with h | ⟨e0, hfind, hlt⟩
  · simp [create_saida_estoque, h]
  · simp [create_saida_estoque, hfind, not_le.mpr hlt]

theorem create_entrada_estoque_found {db : DB} {e : EntradaEstoqueCreate}
    {e0 : EstoqueRow}
    (hfind : findEstoqueBySku db.estoque e.produto_sku = some e0) :
    create_entrada_estoque e db = .ok
      ({ db with
          estoque := setQuantidadeFirst db.estoque e.produto_sku
            (e0.quantidade + e.quantidade),
          entradas := db.entradas ++
            [⟨e.produto_sku, e.quantidade, e.data_entrada, e.observacao⟩] },
        ⟨e.produto_sku, e.quantidade, e.data_entrada, e.observacao⟩) := by
  simp [create_entrada_estoque, hfind]

theorem create_entrada_estoque_new {db : DB} {e : EntradaEstoqueCreate}
    (hfind : findEstoqueBySku db.estoque e.produto_sku = none) :
    create_entrada_estoque e db = .ok
      ({ db with
          estoque := db.estoque ++
            [⟨db.nextId, e.produto_sku, e.quantidade, none, none, none, none⟩],
          entradas := db.entradas ++
            [⟨e.produto_sku, e.quantidade, e.data_entrada, e.observacao⟩],
          nextId := db.nextId + 1 },
        ⟨e.produto_sku, e.quantidade, e.data_entrada, e.observacao⟩) := by
  simp [create_entrada_estoque, hfind]

theorem callCreateEntrada_rollback (ok : Bool) (db : DB)
    (e : EntradaEstoqueCreate) :
    exceptOk (callCreateEntrada ok db e).response = false →
      (callCreateEntrada ok db e).db = db := by
  by_cases hq : 1 ≤ e.quantidade
  · cases hr : create_entrada_estoque e db with
    | error he =>
      intro _
      simp [callCreateEntrada, hq, commit_and_refresh, hr, Except.mapError]
    | ok p =>
      obtain ⟨db', m⟩ := p
      rw [callCreateEntrada_handler_ok ok db e hq hr]
      split
      · intro h; simp [exceptOk] at h
      · intro _; rfl
  · rw [callCreateEntrada_invalid ok db e hq]; intro _; rfl

theorem callCreateSaida_rollback (ok : Bool) (db : DB)
    (s : SaidaEstoqueCreate) :
    exceptOk (callCreateSaida ok db s).response = false →
      (callCreateSaida ok db s).db = db := by
  by_cases hq : 1 ≤ s.quantidade
  · cases hr : create_saida_estoque s db with
    | error he =>
      intro _
      rw [callCreateSaida_handler_error ok db s hq hr]
    | ok p =>
      obtain ⟨db', m⟩ := p
      rw [callCreateSaida_handler_ok ok db s hq hr]
      split
      · intro h; simp [exceptOk] at h
      · intro _; rfl
  · rw [callCreateSaida_invalid ok db s hq]; intro _; rfl

/-! ### Claim theorems -/

/-- C6: every invocation of the transactional wrapper `commit_and_refresh`
performs exactly one terminal transaction action — a committing
`session.commit()` or a `session.rollback()` — and its event trace ends with
one of the two, so the unit-of-work handle is never left open, on the success
path or the failure path.  (A `session.commit()` that raises does not commit;
the wrapper then rolls back.) -/
theorem C6_wrapper_exactly_one_commit_or_rollback (α : Type) (sc : Nat)
    (d : String) (ok : Bool) (db : DB) (r : Except HTTPErr (DB × α)) :
    ((commit_and_refresh sc d ok db r).2.2.countP
      (fun ev => ev == TxEvent.commitOk || ev == TxEvent.rollback)) = 1 ∧
    ∃ last, (commit_and_refresh sc d ok db r).2.2.getLast? = some last ∧
      (last = TxEvent.commitOk ∨ last = TxEvent.rollback) := by
  cases r with
  | error e =>
    exact ⟨rfl, ⟨TxEvent.rollback, rfl, Or.inr rfl⟩⟩
  | ok p =>
    obtain ⟨db', a⟩ := p
    simp only [commit_and_refresh]
    split
    · exact ⟨rfl, ⟨TxEvent.commitOk, rfl, Or.inl rfl⟩⟩
    · exact ⟨rfl, ⟨TxEvent.rollback, rfl, Or.inr rfl⟩⟩

/-- C3: if anything in a movement attempt fails — the handler or the
commit — the decorator rolls the unit of work back and the request leaves the
store exactly as it was before the attempt; in particular no movement row and
no partial balance update is persisted for a failed attempt. -/
theorem C3_failed_movement_leaves_store_unchanged (ok : Bool) (db : DB)
    (e : EntradaEstoqueCreate) (s : SaidaEstoqueCreate) :
    (exceptOk (callCreateEntrada ok db e).response = false →
      (callCreateEntrada ok db e).db = db) ∧
    (exceptOk (callCreateSaida ok db s).response = false →
      (callCreateSaida ok db s).db = db) :=
  ⟨callCreateEntrada_rollback ok db e, callCreateSaida_rollback ok db s⟩

/-- C3 witness: an outbound against an empty store fails, and the store is
unchanged by the attempt. -/
theorem C3_witness :
    (callCreateSaida true emptyDB (SaidaEstoqueCreate.mk "ABC123" 4 0 none)).db
      = emptyDB :=
  (C3_failed_movement_leaves_store_unchanged true emptyDB
    (EntradaEstoqueCreate.mk "ABC123" 1 0 none)
    (SaidaEstoqueCreate.mk "ABC123" 4 0 none)).2 (by decide)

/-- C8: a movement request whose amount is ≤ 0 is rejected by the pydantic
`ge=1` bound before the handler runs: the response is the validation failure,
the store is unchanged (no movement row, no balance change), and no
transaction is even started. -/
theorem C8_nonpositive_amount_fails_validation (ok : Bool) (db : DB)
    (e : EntradaEstoqueCreate) (s : SaidaEstoqueCreate)
    (he : e.quantidade ≤ 0) (hs : s.quantidade ≤ 0) :
    callCreateEntrada ok db e = ⟨db, .error .validation, []⟩ ∧
    callCreateSaida ok db s = ⟨db, .error .validation, []⟩ :=
  ⟨callCreateEntrada_invalid ok db e (by omega),
    callCreateSaida_invalid ok db s (by omega)⟩

/-- C8 witness: zero-amount inbound and outbound against the seeded store. -/
theorem C8_witness :
    ((EntradaEstoqueCreate.mk "ABC123" 0 0 none).quantidade ≤ 0 ∧
      (SaidaEstoqueCreate.mk "ABC123" 0 0 none).quantidade ≤ 0) ∧
    (callCreateEntrada true dbSeed (EntradaEstoqueCreate.mk "ABC123" 0 0 none)
        = ⟨dbSeed, .error .validation, []⟩ ∧
      callCreateSaida true dbSeed (SaidaEstoqueCreate.mk "ABC123" 0 0 none)
        = ⟨dbSeed, .error .validation, []⟩) :=
  ⟨⟨by decide, by decide⟩,
    C8_nonpositive_amount_fails_validation true dbSeed
      (EntradaEstoqueCreate.mk "ABC123" 0 0 none)
      (SaidaEstoqueCreate.mk "ABC123" 0 0 none) (by decide) (by decide)⟩

/-- C10: the balance quantity is mutated only by the movement endpoints.
`update_estoque` pops `quantidade` from the update payload, so the
`(id, quantidade)` view of the balance table is unchanged by every update
request, even one that supplies a quantity; and `create_estoque` overwrites
the caller-supplied quantity with 0, so direct creation either leaves the
table unchanged (on failure) or appends one row whose quantity is 0. -/
theorem C10_quantity_not_writable_directly (ok : Bool) (db : DB) (i : Nat)
    (u : EstoqueUpdate) (c : EstoqueCreate) :
    ((callUpdateEstoque ok db i u).db.estoque.map
        (fun e => (e.id, e.quantidade)) =
      db.estoque.map (fun e => (e.id, e.quantidade))) ∧
    ((callCreateEstoque ok db c).db.estoque = db.estoque ∨
      ∃ row, (callCreateEstoque ok db c).db.estoque = db.estoque ++ [row] ∧
        row.quantidade = 0) := by
  constructor
  · by_cases hv : u.quantidade.all (fun q => decide (0 ≤ q)) = true
    · cases hfind : findEstoqueById db.estoque i with
      | none =>
        simp [callUpdateEstoque, hv, update_estoque, hfind, commit_and_refresh]
      | some e0 =>
        simp only [callUpdateEstoque, hv, if_true, update_estoque, hfind,
          commit_and_refresh]
        split
        · exact map_idq_setRowFirstById hfind (applyEstoqueUpdate_id e0 u)
            (applyEstoqueUpdate_quantidade e0 u)
        · rfl
    · simp [callUpdateEstoque, hv]
  · by_cases hv : 0 ≤ c.quantidade
    · simp only [callCreateEstoque, if_pos hv, create_estoque,
        commit_and_refresh]
      split
      · exact Or.inr ⟨_, rfl, rfl⟩
      · exact Or.inl rfl
    · exact Or.inl (by simp [callCreateEstoque, hv])

/-- C1: an outbound request with amount ≥ 1 against a consistent store fails
exactly when no balance row exists for the SKU or its quantity is below the
requested amount; the exception the handler raises in that case is
`HTTPException(400, 'Estoque insuficiente para saída')`; on failure the store
— hence the balance quantity — is unchanged, and on success the balance
quantity is decremented by exactly the requested amount. -/
theorem C1_outbound_fails_iff_insufficient (db : DB) (s : SaidaEstoqueCreate)
    (hq : 1 ≤ s.quantidade) (hfk : fkOk db = true) :
    (exceptOk (callCreateSaida true db s).response = false ↔
      (findEstoqueBySku db.estoque s.produto_sku = none ∨
        ∃ e0, findEstoqueBySku db.estoque s.produto_sku = some e0 ∧
          e0.quantidade < s.quantidade)) ∧
    (exceptOk (callCreateSaida true db s).response = false →
      (callCreateSaida true db s).db = db) ∧
    (∀ e0, findEstoqueBySku db.estoque s.produto_sku = some e0 →
      s.quantidade ≤ e0.quantidade →
      balance (callCreateSaida true db s).db s.produto_sku =
        e0.quantidade - s.quantidade) ∧
    (∀ he, create_saida_estoque s db = .error he →
      he = ⟨400, "Estoque insuficiente para saída"⟩) := by
  refine ⟨?_, callCreateSaida_rollback true db s, ?_, ?_⟩
  · cases hfind : findEstoqueBySku db.estoque s.produto_sku with
    | none =>
      rw [callCreateSaida_handler_error true db s hq
        (create_saida_estoque_insufficient (Or.inl hfind))]
      exact ⟨fun _ => Or.inl rfl, fun _ => rfl⟩
    | some e0 =>
      by_cases hle : s.quantidade ≤ e0.quantidade
      · rw [callCreateSaida_handler_ok true db s hq
          (create_saida_estoque_found_ge hfind hle)]
        have hc : (fkOk { db with
            estoque := setQuantidadeFirst db.estoque s.produto_sku
              (e0.quantidade - s.quantidade),
            saidas := db.saidas ++
              [⟨s.produto_sku, s.quantidade, s.data_saida, s.observacao⟩] }
            && true) = true := by
          rw [fkOk_saida_commit hfk (contains_sku_of_find hfk hfind)
            (e0.quantidade - s.quantidade) _ rfl]
          rfl
        rw [if_pos hc]
        constructor
        · intro h; simp [exceptOk] at h
        · rintro (h | ⟨e1, hf1, hlt⟩)
          · cases h
          · injection hf1 with h1
            subst h1
            exfalso
            omega
      · rw [callCreateSaida_handler_error true db s hq
          (create_saida_estoque_insufficient
            (Or.inr ⟨e0, hfind, by omega⟩))]
        exact ⟨fun _ => Or.inr ⟨e0, rfl, by omega⟩, fun _ => rfl⟩
  · intro e0 hfind hle
    rw [callCreateSaida_handler_ok true db s hq
      (create_saida_estoque_found_ge hfind hle)]
    have hc : (fkOk { db with
        estoque := setQuantidadeFirst db.estoque s.produto_sku
          (e0.quantidade - s.quantidade),
        saidas := db.saidas ++
          [⟨s.produto_sku, s.quantidade, s.data_saida, s.observacao⟩] }
        && true) = true := by
      rw [fkOk_saida_commit hfk (contains_sku_of_find hfk hfind)
        (e0.quantidade - s.quantidade) _ rfl]
      rfl
    rw [if_pos hc]
    simp [balance, findEstoqueBySku_setQuantidadeFirst, hfind]
  · intro he h
    cases hfind : findEstoqueBySku db.estoque s.produto_sku with
    | none =>
      rw [create_saida_estoque_insufficient (Or.inl hfind)] at h
      injection h with h1
      exact h1.symm
    | some e0 =>
      by_cases hle : s.quantidade ≤ e0.quantidade
      · rw [create_saida_estoque_found_ge hfind hle] at h
        cases h
      · rw [create_saida_estoque_insufficient
          (Or.inr ⟨e0, hfind, by omega⟩)] at h
        injection h with h1
        exact h1.symm

/-- C1 witness: the seeded store (balance 6) rejects an outbound of 100 and
is left unchanged. -/
theorem C1_witness :
    (1 ≤ (SaidaEstoqueCreate.mk "ABC123" 100 0 none).quantidade ∧
      fkOk dbSeed = true) ∧
    (callCreateSaida true dbSeed (SaidaEstoqueCreate.mk "ABC123" 100 0 none)).db
      = dbSeed :=
  ⟨⟨by decide, by decide⟩,
    (C1_outbound_fails_iff_insufficient dbSeed
      (SaidaEstoqueCreate.mk "ABC123" 100 0 none) (by decide) (by decide)).2.1
      (by decide)⟩

/-- C5 counterexample: an inbound for the unknown SKU "UNKNOWN" does not fail
with a ProductNotFound classification.  The handler itself contains no
product-existence check and returns successfully; the request then fails only
at commit (foreign-key violation), and the decorator surfaces its catch-all
`HTTPException(400, 'Erro ao criar a entrada de estoque')` — byte-for-byte
the same failure it surfaces for a pure storage failure on a known product,
so the surfaced failure does not identify the product as missing. -/
theorem C5_counterexample :
    (∃ r, create_entrada_estoque
      (EntradaEstoqueCreate.mk "UNKNOWN" 5 0 none) emptyDB = .ok r) ∧
    (callCreateEntrada true emptyDB
        (EntradaEstoqueCreate.mk "UNKNOWN" 5 0 none)).response =
      .error (.http ⟨400, "Erro ao criar a entrada de estoque"⟩) ∧
    (callCreateEntrada false dbProd
        (EntradaEstoqueCreate.mk "ABC123" 5 0 none)).response =
      .error (.http ⟨400, "Erro ao criar a entrada de estoque"⟩) :=
  ⟨⟨_, rfl⟩, by decide, by decide⟩

/-- C5 amended: an inbound whose SKU is not a known product fails — at
commit, surfaced as the route's generic
`HTTPException(400, 'Erro ao criar a entrada de estoque')` rather than a
distinct ProductNotFound — the store is unchanged, and in particular no
balance row is created for that SKU. -/
theorem C5_unknown_product_inbound_fails_generic (ok : Bool) (db : DB)
    (e : EntradaEstoqueCreate) (hq : 1 ≤ e.quantidade)
    (hunknown : db.produtos.contains e.produto_sku = false) :
    (callCreateEntrada ok db e).response =
      .error (.http ⟨400, "Erro ao criar a entrada de estoque"⟩) ∧
    (callCreateEntrada ok db e).db = db ∧
    (findEstoqueBySku db.estoque e.produto_sku = none →
      findEstoqueBySku (callCreateEntrada ok db e).db.estoque
        e.produto_sku = none) := by
  cases hfind : findEstoqueBySku db.estoque e.produto_sku with
  | some e0 =>
    rw [callCreateEntrada_handler_ok ok db e hq
      (create_entrada_estoque_found hfind)]
    have hfkf : fkOk { db with
        estoque := setQuantidadeFirst db.estoque e.produto_sku
          (e0.quantidade + e.quantidade),
        entradas := db.entradas ++
          [⟨e.produto_sku, e.quantidade, e.data_entrada, e.observacao⟩] }
        = false := by
      apply Bool.eq_false_iff.mpr
      intro htrue
      rcases fkOk_iff.mp htrue with ⟨-, hn, -⟩
      have hrow := List.all_eq_true.mp hn
        ⟨e.produto_sku, e.quantidade, e.data_entrada, e.observacao⟩
        (List.mem_append_right _ (List.mem_singleton.mpr rfl))
      simp at hrow
      exact absurd hrow (by simpa using hunknown)
    rw [if_neg (by simp [hfkf])]
    exact ⟨rfl, rfl, fun h => nomatch h⟩
  | none =>
    rw [callCreateEntrada_handler_ok ok db e hq
      (create_entrada_estoque_new hfind)]
    have hfkf : fkOk { db with
        estoque := db.estoque ++
          [⟨db.nextId, e.produto_sku, e.quantidade, none, none, none, none⟩],
        entradas := db.entradas ++
          [⟨e.produto_sku, e.quantidade, e.data_entrada, e.observacao⟩],
        nextId := db.nextId + 1 } = false := by
      apply Bool.eq_false_iff.mpr
      intro htrue
      rcases fkOk_iff.mp htrue with ⟨-, hn, -⟩
      have hrow := List.all_eq_true.mp hn
        ⟨e.produto_sku, e.quantidade, e.data_entrada, e.observacao⟩
        (List.mem_append_right _ (List.mem_singleton.mpr rfl))
      simp at hrow
      exact absurd hrow (by simpa using hunknown)
    rw [if_neg (by simp [hfkf])]
    exact ⟨rfl, rfl, fun _ => hfind⟩

/-- C5 witness: the inbound of the counterexample, against the empty store. -/
theorem C5_witness :
    (1 ≤ (EntradaEstoqueCreate.mk "UNKNOWN" 5 0 none).quantidade ∧
      emptyDB.produtos.contains "UNKNOWN" = false) ∧
    (callCreateEntrada true emptyDB
        (EntradaEstoqueCreate.mk "UNKNOWN" 5 0 none)).db = emptyDB :=
  ⟨⟨by decide, by decide⟩,
    (C5_unknown_product_inbound_fails_generic true emptyDB
      (EntradaEstoqueCreate.mk "UNKNOWN" 5 0 none)
      (by decide) (by decide)).2.1⟩

/-- C7: the failure kinds do not all reach the request boundary as distinct
classifiable failures.  At a store holding product ABC123 with balance 0, an
outbound of 1 trips the insufficient-stock check — the handler raises
`HTTPException(400, 'Estoque insuficiente para saída')` — yet the decorator
catches it and surfaces its catch-all
`HTTPException(400, 'Erro ao criar a saída de estoque')`, byte-for-byte
identical to what a pure storage failure on a sufficient-stock outbound
surfaces; the two causes are indistinguishable at the boundary. -/
theorem C7_insufficient_stock_not_distinct_at_boundary :
    (callCreateSaida true dbZero
        (SaidaEstoqueCreate.mk "ABC123" 1 0 none)).response =
      .error (.http ⟨400, "Erro ao criar a saída de estoque"⟩) ∧
    (callCreateSaida false dbSeed
        (SaidaEstoqueCreate.mk "ABC123" 1 0 none)).response =
      .error (.http ⟨400, "Erro ao criar a saída de estoque"⟩) ∧
    create_saida_estoque (SaidaEstoqueCreate.mk "ABC123" 1 0 none) dbZero =
      .error ⟨400, "Estoque insuficiente para saída"⟩ ∧
    (∃ r, create_saida_estoque
      (SaidaEstoqueCreate.mk "ABC123" 1 0 none) dbSeed = .ok r) :=
  ⟨by decide, by decide, by decide, ⟨_, rfl⟩⟩

/-- C9: an inbound with amount ≥ 1 for a known product against a consistent
store always succeeds; when no balance row exists for the SKU one is created
whose quantity after the call equals the amount, when one exists its quantity
is incremented by exactly the amount, and in either case at most one balance
row per SKU remains (given at most one before).  (The code creates the fresh
row directly carrying the inbound amount; the observable quantity after the
call equals the amount, as if a zero row had been created and incremented.) -/
theorem C9_inbound_always_succeeds (db : DB) (e : EntradaEstoqueCreate)
    (hq : 1 ≤ e.quantidade)
    (hknown : db.produtos.contains e.produto_sku = true)
    (hfk : fkOk db = true) :
    exceptOk (callCreateEntrada true db e).response = true ∧
    (findEstoqueBySku db.estoque e.produto_sku = none →
      ∃ rec, findEstoqueBySku (callCreateEntrada true db e).db.estoque
          e.produto_sku = some rec ∧ rec.quantidade = e.quantidade) ∧
    (∀ e0, findEstoqueBySku db.estoque e.produto_sku = some e0 →
      ∃ rec, findEstoqueBySku (callCreateEntrada true db e).db.estoque
          e.produto_sku = some rec ∧
        rec.quantidade = e0.quantidade + e.quantidade) ∧
    (countSku db e.produto_sku ≤ 1 →
      countSku (callCreateEntrada true db e).db e.produto_sku ≤ 1) := by
  cases hfind : findEstoqueBySku db.estoque e.produto_sku with
  | some e0 =>
    rw [callCreateEntrada_handler_ok true db e hq
      (create_entrada_estoque_found hfind)]
    have hc : (fkOk { db with
        estoque := setQuantidadeFirst db.estoque e.produto_sku
          (e0.quantidade + e.quantidade),
        entradas := db.entradas ++
          [⟨e.produto_sku, e.quantidade, e.data_entrada, e.observacao⟩] }
        && true) = true := by
      rw [fkOk_entrada_commit_found hfk hknown (e0.quantidade + e.quantidade)
        _ rfl]
      rfl
    rw [if_pos hc]
    refine ⟨rfl, ?_, ?_, ?_⟩
    · intro h; cases h
    · intro e1 h1
      injection h1 with h1
      subst h1
      refine ⟨{ e0 with quantidade := e0.quantidade + e.quantidade }, ?_, rfl⟩
      rw [show ({ db with
          estoque := setQuantidadeFirst db.estoque e.produto_sku
            (e0.quantidade + e.quantidade),
          entradas := db.entradas ++
            [⟨e.produto_sku, e.quantidade, e.data_entrada, e.observacao⟩] }
          : DB).estoque = setQuantidadeFirst db.estoque e.produto_sku
            (e0.quantidade + e.quantidade) from rfl]
      rw [findEstoqueBySku_setQuantidadeFirst, hfind]
      rfl
    · intro hcount
      calc countSku { db with
            estoque := setQuantidadeFirst db.estoque e.produto_sku
              (e0.quantidade + e.quantidade),
            entradas := db.entradas ++
              [⟨e.produto_sku, e.quantidade, e.data_entrada, e.observacao⟩] }
            e.produto_sku
          = countSku db e.produto_sku :=
            countP_sku_setQuantidadeFirst db.estoque e.produto_sku
              e.produto_sku (e0.quantidade + e.quantidade)
        _ ≤ 1 := hcount
  | none =>
    rw [callCreateEntrada_handler_ok true db e hq
      (create_entrada_estoque_new hfind)]
    have hc : (fkOk { db with
        estoque := db.estoque ++
          [⟨db.nextId, e.produto_sku, e.quantidade, none, none, none, none⟩],
        entradas := db.entradas ++
          [⟨e.produto_sku, e.quantidade, e.data_entrada, e.observacao⟩],
        nextId := db.nextId + 1 } && true) = true := by
      rw [fkOk_entrada_commit_new hfk hknown _ rfl _ rfl]
      rfl
    rw [if_pos hc]
    refine ⟨rfl, ?_, ?_, ?_⟩
    · intro _
      refine ⟨⟨db.nextId, e.produto_sku, e.quantidade, none, none, none,
        none⟩, ?_, rfl⟩
      rw [show ({ db with
          estoque := db.estoque ++
            [⟨db.nextId, e.produto_sku, e.quantidade, none, none, none,
              none⟩],
          entradas := db.entradas ++
            [⟨e.produto_sku, e.quantidade, e.data_entrada, e.observacao⟩],
          nextId := db.nextId + 1 } : DB).estoque = db.estoque ++
            [⟨db.nextId, e.produto_sku, e.quantidade, none, none, none,
              none⟩] from rfl]
      rw [findEstoqueBySku_append_of_none hfind]
      simp [findEstoqueBySku]
    · intro e1 h1; cases h1
    · intro hcount
      have h0 : List.countP (fun x => x.produto_sku == e.produto_sku)
          db.estoque = 0 := by
        apply List.countP_eq_zero.mpr
        intro a ha hpa
        have := (List.find?_eq_none.mp hfind) a ha
        exact this hpa
      show List.countP (fun x => x.produto_sku == e.produto_sku)
          (db.estoque ++
            [⟨db.nextId, e.produto_sku, e.quantidade, none, none, none,
              none⟩]) ≤ 1
      rw [List.countP_append, h0]
      simp [List.countP_cons]

/-- C9 witness: inbound of 10 for the registered product with no prior
balance row. -/
theorem C9_witness :
    (1 ≤ (EntradaEstoqueCreate.mk "ABC123" 10 0 none).quantidade ∧
      dbProd.produtos.contains "ABC123" = true ∧ fkOk dbProd = true) ∧
    exceptOk (callCreateEntrada true dbProd
      (EntradaEstoqueCreate.mk "ABC123" 10 0 none)).response = true :=
  ⟨⟨by decide, by decide, by decide⟩,
    (C9_inbound_always_succeeds dbProd
      (EntradaEstoqueCreate.mk "ABC123" 10 0 none)
      (by decide) (by decide) (by decide)).1⟩

theorem applyMov_balance {db : DB} {m : MovReq} {sku : String}
    (hsku : movSku m = sku) (hok : (applyMov db m).2 = true) :
    balance (applyMov db m).1 sku = balance db sku + movDelta m := by
  cases m with
  | inbound e =>
    simp only [movSku] at hsku
    subst hsku
    simp only [applyMov, movDelta] at hok ⊢
    by_cases hq : 1 ≤ e.quantidade
    · cases hfind : findEstoqueBySku db.estoque e.produto_sku with
      | some e0 =>
        rw [callCreateEntrada_handler_ok true db e hq
          (create_entrada_estoque_found hfind)] at hok ⊢
        by_cases hc : (fkOk { db with
            estoque := setQuantidadeFirst db.estoque e.produto_sku
              (e0.quantidade + e.quantidade),
            entradas := db.entradas ++
              [⟨e.produto_sku, e.quantidade, e.data_entrada, e.observacao⟩] }
            && true) = true
        · rw [if_pos hc]
          simp [balance, findEstoqueBySku_setQuantidadeFirst, hfind]
        · rw [if_neg hc] at hok
          simp [exceptOk] at hok
      | none =>
        rw [callCreateEntrada_handler_ok true db e hq
          (create_entrada_estoque_new hfind)] at hok ⊢
        by_cases hc : (fkOk { db with
            estoque := db.estoque ++
              [⟨db.nextId, e.produto_sku, e.quantidade, none, none, none,
                none⟩],
            entradas := db.entradas ++
              [⟨e.produto_sku, e.quantidade, e.data_entrada, e.observacao⟩],
            nextId := db.nextId + 1 } && true) = true
        · rw [if_pos hc]
          rw [show balance db e.produto_sku = 0 from by simp [balance, hfind]]
          show balance { db with
            estoque := db.estoque ++
              [⟨db.nextId, e.produto_sku, e.quantidade, none, none, none,
                none⟩],
            entradas := db.entradas ++
              [⟨e.produto_sku, e.quantidade, e.data_entrada, e.observacao⟩],
            nextId := db.nextId + 1 } e.produto_sku = 0 + e.quantidade
          simp only [balance]
          rw [findEstoqueBySku_append_of_none hfind]
          simp [findEstoqueBySku]
        · rw [if_neg hc] at hok
          simp [exceptOk] at hok
    · rw [callCreateEntrada_invalid true db e hq] at hok
      simp [exceptOk] at hok
  | outbound s =>
    simp only [movSku] at hsku
    subst hsku
    simp only [applyMov, movDelta] at hok ⊢
    by_cases hq : 1 ≤ s.quantidade
    · cases hfind : findEstoqueBySku db.estoque s.produto_sku with
      | some e0 =>
        by_cases hle : s.quantidade ≤ e0.quantidade
        · rw [callCreateSaida_handler_ok true db s hq
            (create_saida_estoque_found_ge hfind hle)] at hok ⊢
          by_cases hc : (fkOk { db with
              estoque := setQuantidadeFirst db.estoque s.produto_sku
                (e0.quantidade - s.quantidade),
              saidas := db.saidas ++
                [⟨s.produto_sku, s.quantidade, s.data_saida, s.observacao⟩] }
              && true) = true
          · rw [if_pos hc]
            simp [balance, findEstoqueBySku_setQuantidadeFirst, hfind]
            ring
          · rw [if_neg hc] at hok
            simp [exceptOk] at hok
        · rw [callCreateSaida_handler_error true db s hq
            (create_saida_estoque_insufficient
              (Or.inr ⟨e0, hfind, by omega⟩))] at hok
          simp [exceptOk] at hok
      | none =>
        rw [callCreateSaida_handler_error true db s hq
          (create_saida_estoque_insufficient (Or.inl hfind))] at hok
        simp [exceptOk] at hok
    · rw [callCreateSaida_invalid true db s hq] at hok
      simp [exceptOk] at hok

theorem applyMovs_balance (sku : String) (ms : List MovReq) :
    ∀ db : DB, (∀ m ∈ ms, movSku m = sku) → allSucceed db ms = true →
      balance (applyMovs db ms) sku =
        balance db sku + (sumInbound ms - sumOutbound ms) := by
  induction ms with
  | nil =>
    intro db _ _
    simp [applyMovs, sumInbound, sumOutbound]
  | cons m ms ih =>
    intro db hsku hok
    simp only [applyMovs]
    simp only [allSucceed, Bool.and_eq_true] at hok
    obtain ⟨h1, h2⟩ := hok
    rw [ih _ (fun x hx => hsku x (List.mem_cons_of_mem _ hx)) h2]
    rw [applyMov_balance (hsku m (List.mem_cons_self _ _)) h1]
    cases m <;> simp [sumInbound, sumOutbound, movDelta] <;> ring

/-- C2: for every sequence of movement requests on a single SKU, applied
sequentially starting from a store with no balance row for that SKU, if every
request succeeds then the resulting balance quantity for the SKU equals the
sum of the inbound amounts minus the sum of the outbound amounts. -/
theorem C2_balance_is_sum_of_movements (db : DB) (sku : String)
    (ms : List MovReq) (h0 : findEstoqueBySku db.estoque sku = none)
    (hsku : ∀ m ∈ ms, movSku m = sku)
    (hok : allSucceed db ms = true) :
    balance (applyMovs db ms) sku = sumInbound ms - sumOutbound ms := by
  rw [applyMovs_balance sku ms db hsku hok]
  simp [balance, h0]

/-- C2 witness: inbound 10 then outbound 4 on ABC123, starting from the store
that has the product but no balance row, yield balance 10 − 4. -/
theorem C2_witness :
    (findEstoqueBySku dbProd.estoque "ABC123" = none ∧
      (∀ m ∈ [MovReq.inbound (EntradaEstoqueCreate.mk "ABC123" 10 1 none),
        MovReq.outbound (SaidaEstoqueCreate.mk "ABC123" 4 2 none)],
          movSku m = "ABC123") ∧
      allSucceed dbProd
        [MovReq.inbound (EntradaEstoqueCreate.mk "ABC123" 10 1 none),
          MovReq.outbound (SaidaEstoqueCreate.mk "ABC123" 4 2 none)] = true) ∧
    balance (applyMovs dbProd
        [MovReq.inbound (EntradaEstoqueCreate.mk "ABC123" 10 1 none),
          MovReq.outbound (SaidaEstoqueCreate.mk "ABC123" 4 2 none)])
        "ABC123" =
      sumInbound
        [MovReq.inbound (EntradaEstoqueCreate.mk "ABC123" 10 1 none),
          MovReq.outbound (SaidaEstoqueCreate.mk "ABC123" 4 2 none)] -
      sumOutbound
        [MovReq.inbound (EntradaEstoqueCreate.mk "ABC123" 10 1 none),
          MovReq.outbound (SaidaEstoqueCreate.mk "ABC123" 4 2 none)] :=
  ⟨⟨by decide, by decide, by decide⟩,
    C2_balance_is_sum_of_movements dbProd "ABC123"
      [MovReq.inbound (EntradaEstoqueCreate.mk "ABC123" 10 1 none),
        MovReq.outbound (SaidaEstoqueCreate.mk "ABC123" 4 2 none)]
      (by decide) (by decide) (by decide)⟩

theorem nonneg_of_map_idq_eq {l l' : List EstoqueRow}
    (h : l'.map (fun e => (e.id, e.quantidade)) =
      l.map (fun e => (e.id, e.quantidade)))
    (hn : ∀ x ∈ l, 0 ≤ x.quantidade) : ∀ x ∈ l', 0 ≤ x.quantidade := by
  intro x hx
  have hmem : (x.id, x.quantidade) ∈
      l'.map (fun e => (e.id, e.quantidade)) :=
    List.mem_map_of_mem _ hx
  rw [h] at hmem
  rcases List.mem_map.mp hmem with ⟨y, hy, hxy⟩
  injection hxy with h1 h2
  rw [← h2]
  exact hn y hy

theorem nonneg_runOp {db : DB} (hn : ∀ x ∈ db.estoque, 0 ≤ x.quantidade)
    (ok : Bool) (op : Op) : ∀ x ∈ (runOp ok db op).estoque, 0 ≤ x.quantidade := by
  cases op with
  | newProduct sku =>
    have hest : (runOp ok db (Op.newProduct sku)).estoque = db.estoque := by
      simp only [runOp, create_product]
      split
      · rfl
      · split <;> rfl
    rw [hest]
    exact hn
  | entrada e =>
    simp only [runOp]
    by_cases hq : 1 ≤ e.quantidade
    · cases hfind : findEstoqueBySku db.estoque e.produto_sku with
      | some e0 =>
        rw [callCreateEntrada_handler_ok ok db e hq
          (create_entrada_estoque_found hfind)]
        split
        · intro x hx
          rcases mem_setQuantidadeFirst hx with ⟨y, hy, hxy⟩ | hx'
          · subst hxy
            have h0 : 0 ≤ e0.quantidade :=
              hn e0 (List.mem_of_find?_eq_some hfind)
            show 0 ≤ e0.quantidade + e.quantidade
            omega
          · exact hn x hx'
        · exact hn
      | none =>
        rw [callCreateEntrada_handler_ok ok db e hq
          (create_entrada_estoque_new hfind)]
        split
        · intro x hx
          rcases List.mem_append.mp hx with hx' | hx'
          · exact hn x hx'
          · rw [List.mem_singleton.mp hx']
            show 0 ≤ e.quantidade
            omega
        · exact hn
    · rw [callCreateEntrada_invalid ok db e hq]
      exact hn
  | saida s =>
    simp only [runOp]
    by_cases hq : 1 ≤ s.quantidade
    · cases hfind : findEstoqueBySku db.estoque s.produto_sku with
      | some e0 =>
        by_cases hle : s.quantidade ≤ e0.quantidade
        · rw [callCreateSaida_handler_ok ok db s hq
            (create_saida_estoque_found_ge hfind hle)]
          split
          · intro x hx
            rcases mem_setQuantidadeFirst hx with ⟨y, hy, hxy⟩ | hx'
            · subst hxy
              have h0 : 0 ≤ e0.quantidade :=
                hn e0 (List.mem_of_find?_eq_some hfind)
              show 0 ≤ e0.quantidade - s.quantidade
              omega
            · exact hn x hx'
          · exact hn
        · rw [callCreateSaida_handler_error ok db s hq
            (create_saida_estoque_insufficient
              (Or.inr ⟨e0, hfind, by omega⟩))]
          exact hn
      | none =>
        rw [callCreateSaida_handler_error ok db s hq
          (create_saida_estoque_insufficient (Or.inl hfind))]
        exact hn
    · rw [callCreateSaida_invalid ok db s hq]
      exact hn
  | novoEstoque c =>
    simp only [runOp]
    by_cases hv : 0 ≤ c.quantidade
    · simp only [callCreateEstoque, if_pos hv, create_estoque,
        commit_and_refresh]
      split
      · intro x hx
        rcases List.mem_append.mp hx with hx' | hx'
        · exact hn x hx'
        · rw [List.mem_singleton.mp hx']
      · exact hn
    · simp only [callCreateEstoque, if_neg hv]
      exact hn
  | updEstoque i u =>
    simp only [runOp]
    by_cases hv : u.quantidade.all (fun q => decide (0 ≤ q)) = true
    · cases hfind : findEstoqueById db.estoque i with
      | none =>
        simp only [callUpdateEstoque, hv, if_true, update_estoque, hfind,
          commit_and_refresh]
        exact hn
      | some e0 =>
        simp only [callUpdateEstoque, hv, if_true, update_estoque, hfind,
          commit_and_refresh]
        split
        · exact nonneg_of_map_idq_eq
            (map_idq_setRowFirstById hfind (applyEstoqueUpdate_id e0 u)
              (applyEstoqueUpdate_quantidade e0 u)) hn
        · exact hn
    · simp only [callUpdateEstoque]
      rw [if_neg hv]
      exact hn
  | delEstoque i =>
    simp only [runOp, delete_estoque]
    split
    · exact hn
    · split
      · intro x hx
        exact hn x (mem_removeEstoqueById hx)
      · exact hn

/-- C4: in every state reachable from a fresh deployment through the API
operations — product creation, inbound and outbound movements, direct
balance-row creation, balance-row update and balance-row deletion, under any
storage behaviour — the quantity of every existing balance row is ≥ 0. -/
theorem C4_reachable_balances_nonneg (db : DB) (h : Reachable db) :
    ∀ x ∈ db.estoque, 0 ≤ x.quantidade := by
  induction h with
  | init => intro x hx; cases hx
  | step db ok op hdb ih => exact nonneg_runOp ih ok op

/-- C4 witness: the state reached by registering product ABC123 and applying
an inbound of 10 is reachable and its balance rows are all ≥ 0. -/
theorem C4_witness :
    Reachable (runOp true (runOp true emptyDB (Op.newProduct "ABC123"))
      (Op.entrada (EntradaEstoqueCreate.mk "ABC123" 10 0 none))) ∧
    ∀ x ∈ (runOp true (runOp true emptyDB (Op.newProduct "ABC123"))
      (Op.entrada (EntradaEstoqueCreate.mk "ABC123" 10 0 none))).estoque,
      0 ≤ x.quantidade :=
  ⟨Reachable.step _ _ _ (Reachable.step _ _ _ Reachable.init),
    C4_reachable_balances_nonneg _
      (Reachable.step _ _ _ (Reachable.step _ _ _ Reachable.init))⟩

end VenderApi
